import Mathlib

/-!
Shallow embedding of the CIA peripheral-chip emulation core of this
repository (source file `src/zpc/cia.rs`), together with theorems that
settle the specification claims about it.

Conventions of the embedding:
* Machine integers (`u8`, `u16`) are represented as `Nat`.  Bit masking
  `x & 0xFF` is written `x % 256`, `x & 0x00FF` is `x % 256`,
  `x & 0xFF00` is `((x / 256) % 256) * 256`, `x >> 4` is `x / 16`,
  `x & 0x0F` is `x % 16`, bitwise not `!x` on a `u8` is `255 ^^^ x`,
  and the wrapping decrement `value -= 1` on a `u16` is
  `(value + 65535) % 65536`.  All other bit operations are kept as
  `&&&`, `|||`, `^^^`, `<<<`.
* `&mut` out-parameters (the interrupt control register `icr`, the
  CPU callback cell) are threaded explicitly: functions return the
  updated values.
* Calls into the collaborators (bus memory mirror, video chip) are
  recorded as a list of `Event`s; signals to the CPU collaborator
  (`set_cia_irq` / `set_nmi`) are returned as `Signal`s.
* Rust `panic!` arms are represented by `Option.none`.
* The mirrored-address recursion in the register dispatch always
  terminates after one step (the folded address has low byte
  `addr % 16 < 0x10`), so it is embedded as a single fold step in
  front of the non-recursive dispatch body; this keeps every
  definition computable by the kernel.
-/

/-- The seven states of a CIA interval timer (source `enum TimerState`). -/
inductive TimerState where
  | Stop
  | WaitCount
  | LoadStop
  | LoadCount
  | LoadWaitCount
  | Count
  | CountStop
deriving DecidableEq

/-- One CIA interval timer (source `struct CIATimer`). -/
structure CIATimer where
  state : TimerState
  is_ta : Bool
  value : Nat
  latch : Nat
  ctrl : Nat
  new_ctrl : Nat
  has_new_ctrl : Bool
  is_cnt_phi2 : Bool
  irq_next_cycle : Bool
  underflow : Bool
  cnt_ta_underflow : Bool
deriving DecidableEq

/-- `CIATimer::new` (also the field values restored by `CIATimer::reset`). -/
def CIATimer.new (is_ta : Bool) : CIATimer where
  state := TimerState.Stop
  is_ta := is_ta
  value := 0xFFFF
  latch := 1
  ctrl := 0
  new_ctrl := 0
  has_new_ctrl := false
  is_cnt_phi2 := false
  irq_next_cycle := false
  underflow := false
  cnt_ta_underflow := false

/-- `CIATimer::irq`: reload from latch, flag the interrupt for the next
cycle, set source bit 0 (timer A) or 1 (timer B) in the chip ICR, and in
one-shot mode clear the run bit and stop. -/
def CIATimer.irq (t : CIATimer) (cia_icr : Nat) : CIATimer × Nat :=
  let t := { t with value := t.latch, irq_next_cycle := true }
  let cia_icr := cia_icr ||| (if t.is_ta then 1 else 2)
  if t.ctrl &&& 8 ≠ 0 then
    ({ t with ctrl := t.ctrl &&& 0xFE, new_ctrl := t.new_ctrl &&& 0xFE,
              state := TimerState.LoadStop }, cia_icr)
  else
    ({ t with state := TimerState.LoadCount }, cia_icr)

/-- `CIATimer::count`: the countdown step.  The decrement `value -= 1`
is a `u16` subtraction, embedded with an explicit wrap modulo `2^16`. -/
def CIATimer.count (t : CIATimer) (cia_icr : Nat) (ta_underflow : Bool) :
    CIATimer × Nat :=
  if t.is_cnt_phi2 || (t.cnt_ta_underflow && ta_underflow) then
    let curr_val := t.value
    let t := { t with value := (t.value + 65535) % 65536 }
    if curr_val = 0 ∨ t.value = 0 then
      let (t, cia_icr) :=
        match t.state with
        | TimerState.Stop => (t, cia_icr)
        | _ => t.irq cia_icr
      ({ t with underflow := true }, cia_icr)
    else
      (t, cia_icr)
  else
    (t, cia_icr)

/-- `CIATimer::idle`: fold a staged control-register write
(`new_ctrl`) into the state machine, with the documented one-cycle
latency semantics. -/
def CIATimer.idle (t : CIATimer) : CIATimer :=
  if t.has_new_ctrl then
    let t :=
      match t.state with
      | TimerState.Stop | TimerState.LoadStop =>
        if t.new_ctrl &&& 1 ≠ 0 then
          if t.new_ctrl &&& 0x10 ≠ 0 then
            { t with state := TimerState.LoadWaitCount }
          else
            { t with state := TimerState.WaitCount }
        else
          if t.new_ctrl &&& 0x10 ≠ 0 then
            { t with state := TimerState.LoadStop }
          else
            t
      | TimerState.WaitCount | TimerState.LoadCount =>
        if t.new_ctrl &&& 1 ≠ 0 then
          if t.new_ctrl &&& 8 ≠ 0 then
            { t with new_ctrl := t.new_ctrl &&& 0xFE, state := TimerState.Stop }
          else
            if t.new_ctrl &&& 0x10 ≠ 0 then
              { t with state := TimerState.LoadWaitCount }
            else
              t
        else
          { t with state := TimerState.Stop }
      | TimerState.Count =>
        if t.new_ctrl &&& 1 ≠ 0 then
          if t.new_ctrl &&& 0x10 ≠ 0 then
            { t with state := TimerState.LoadWaitCount }
          else
            t
        else
          if t.new_ctrl &&& 0x10 ≠ 0 then
            { t with state := TimerState.LoadStop }
          else
            { t with state := TimerState.CountStop }
      | _ => t
    { t with ctrl := t.new_ctrl &&& 0xEF, has_new_ctrl := false }
  else
    t

/-- `CIATimer::update`: one chip cycle of the timer state machine,
followed by the `idle()` step. -/
def CIATimer.update (t : CIATimer) (cia_icr : Nat) (ta_underflow : Bool) :
    CIATimer × Nat :=
  let (t, cia_icr) :=
    match t.state with
    | TimerState.Stop => (t, cia_icr)
    | TimerState.WaitCount => ({ t with state := TimerState.Count }, cia_icr)
    | TimerState.LoadStop =>
      ({ t with state := TimerState.Stop, value := t.latch }, cia_icr)
    | TimerState.LoadCount =>
      ({ t with state := TimerState.Count, value := t.latch }, cia_icr)
    | TimerState.LoadWaitCount =>
      let t := { t with state := TimerState.WaitCount }
      if t.value = 1 then t.irq cia_icr
      else ({ t with value := t.latch }, cia_icr)
    | TimerState.Count => t.count cia_icr ta_underflow
    | TimerState.CountStop =>
      ({ t with state := TimerState.Stop } : CIATimer).count cia_icr ta_underflow
  (t.idle, cia_icr)

/-- The CPU-callback cell `cpu::Callback` as used by the register
dispatch (the CPU module is outside the given sources; the variants are
the ones this file stores into the cell). -/
inductive Callback where
  | None
  | ClearCIAIrq
  | ClearNMI
  | TriggerCIAIrq
  | TriggerNMI
deriving DecidableEq

/-- A direct signal to the CPU collaborator
(`set_cia_irq(true)` / `set_nmi(true)`). -/
inductive Signal where
  | CiaIrq
  | Nmi
deriving DecidableEq

/-- A call into a collaborator recorded by a register write: a mirror
write into the bus I/O bank, a video-chip `on_va_change` notification,
or a video-chip light-pen trigger. -/
inductive Event where
  | MemWrite (addr value : Nat)
  | VaChange (bits : Nat)
  | LpIrq
deriving DecidableEq

/-- The CIA chip (source `struct CIA`), without the collaborator
references (bus / CPU / video chip), whose effects are returned as
`Event`s and `Signal`s instead. -/
structure CIA where
  is_cia1 : Bool
  timer_a : CIATimer
  timer_b : CIATimer
  irq_mask : Nat
  icr : Nat
  pra : Nat
  prb : Nat
  ddra : Nat
  ddrb : Nat
  sdr : Nat
  tod_halt : Bool
  tod_freq_div : Nat
  tod_hour : Nat
  tod_min : Nat
  tod_sec : Nat
  tod_dsec : Nat
  alarm_hour : Nat
  alarm_min : Nat
  alarm_sec : Nat
  alarm_dsec : Nat
  key_matrix : List Nat
  rev_matrix : List Nat
  joystick_1 : Nat
  joystick_2 : Nat
  prev_lp : Nat
  iec_lines : Nat
deriving DecidableEq

/-- `CIA::new_shared` field values (also restored by `CIA::reset`). -/
def CIA.new (is_cia1 : Bool) : CIA where
  is_cia1 := is_cia1
  timer_a := CIATimer.new true
  timer_b := CIATimer.new false
  irq_mask := 0
  icr := 0
  pra := 0
  prb := 0
  ddra := 0
  ddrb := 0
  sdr := 0
  tod_halt := false
  tod_freq_div := 0
  tod_hour := 0
  tod_min := 0
  tod_sec := 0
  tod_dsec := 0
  alarm_hour := 0
  alarm_min := 0
  alarm_sec := 0
  alarm_dsec := 0
  key_matrix := List.replicate 8 0xFF
  rev_matrix := List.replicate 8 0xFF
  joystick_1 := 0xFF
  joystick_2 := 0xFF
  prev_lp := 0x10
  iec_lines := 0xD0

/-- `CIA::update`: advance timer A (its cascade input forced false),
then advance timer B with timer A's `underflow` flag as input. -/
def CIA.update (c : CIA) : CIA :=
  let (ta, icr) := c.timer_a.update c.icr false
  let ta_underflow := ta.underflow
  let (tb, icr) := c.timer_b.update icr ta_underflow
  { c with timer_a := ta, timer_b := tb, icr := icr }

/-- Iterated `CIA::update`. -/
def CIA.updates (c : CIA) : Nat → CIA
  | 0 => c
  | n + 1 => (c.update).updates n

/-- `CIA::trigger_irq`: OR the source mask into the ICR; if the source
is enabled in `irq_mask`, also set the summary bit 7 and report `true`
(the interrupt line must be asserted). -/
def CIA.trigger_irq (c : CIA) (mask : Nat) : CIA × Bool :=
  let icr := c.icr ||| mask
  if c.irq_mask &&& mask ≠ 0 then
    ({ c with icr := icr ||| 0x80 }, true)
  else
    ({ c with icr := icr }, false)

/-- `CIA::process_irq`, exactly as written in the source: both blocks
test and clear `timer_a.irq_next_cycle` (the second block raises source
mask 2 but is guarded by timer A's flag, not timer B's). -/
def CIA.process_irq (c : CIA) : CIA × List Signal :=
  let (c, sigs) :=
    if c.timer_a.irq_next_cycle then
      let (c, fired) := c.trigger_irq 1
      let s := if fired then [if c.is_cia1 then Signal.CiaIrq else Signal.Nmi] else []
      ({ c with timer_a := { c.timer_a with irq_next_cycle := false } }, s)
    else
      (c, [])
  if c.timer_a.irq_next_cycle then
    let (c2, fired) := c.trigger_irq 2
    let s := if fired then [if c2.is_cia1 then Signal.CiaIrq else Signal.Nmi] else []
    ({ c2 with timer_a := { c2.timer_a with irq_next_cycle := false } }, sigs ++ s)
  else
    (c, sigs)

/-- The alarm comparison at the end of `CIA::count_tod`: on an exact
match of all four fields, raise source 4 and, if enabled, signal the
CPU collaborator. -/
def CIA.tod_alarm_check (c : CIA) : CIA × Option Signal :=
  if c.tod_dsec = c.alarm_dsec ∧ c.tod_sec = c.alarm_sec ∧
     c.tod_min = c.alarm_min ∧ c.tod_hour = c.alarm_hour then
    let (c2, fired) := c.trigger_irq 4
    if fired then
      (c2, some (if c2.is_cia1 then Signal.CiaIrq else Signal.Nmi))
    else
      (c2, none)
  else
    (c, none)

/-- `CIA::count_tod`: pace by the frequency divisor, then advance the
BCD deciseconds / seconds / minutes / hours chain, then check the
alarm.  Note the source stores the incremented hour with `|=` and never
consults `tod_halt`. -/
def CIA.count_tod (c : CIA) : CIA × Option Signal :=
  if c.tod_freq_div ≠ 0 then
    ({ c with tod_freq_div := c.tod_freq_div - 1 }, none)
  else
    let fd := if c.timer_a.ctrl &&& 0x80 ≠ 0 then 4 else 5
    let ds := c.tod_dsec + 1
    let c2 :=
      if ds > 9 then
        let lo := (c.tod_sec % 16) + 1
        let hi := c.tod_sec / 16
        let lo2 := if lo > 9 then 0 else lo
        let hi2 := if lo > 9 then hi + 1 else hi
        if hi2 > 5 then
          let mlo := (c.tod_min % 16) + 1
          let mhi := c.tod_min / 16
          let mlo2 := if mlo > 9 then 0 else mlo
          let mhi2 := if mlo > 9 then mhi + 1 else mhi
          if mhi2 > 5 then
            let hlo := (c.tod_hour % 16) + 1
            let hhi := c.tod_hour / 16
            let hlo2 := if hlo > 9 then 0 else hlo
            let hhi2 := if hlo > 9 then hhi + 1 else hhi
            let h := c.tod_hour ||| ((hhi2 <<< 4) ||| hlo2)
            let h2 := if h &&& 0x1F > 0x11 then (h &&& 0x80) ^^^ 0x80 else h
            { c with tod_freq_div := fd, tod_dsec := 0, tod_sec := 0,
                     tod_min := 0, tod_hour := h2 }
          else
            { c with tod_freq_div := fd, tod_dsec := 0, tod_sec := 0,
                     tod_min := (mhi2 <<< 4) ||| mlo2 }
        else
          { c with tod_freq_div := fd, tod_dsec := 0,
                   tod_sec := (hi2 <<< 4) ||| lo2 }
      else
        { c with tod_freq_div := fd, tod_dsec := ds }
    c2.tod_alarm_check

/-- `CIA::check_lp` (CIA1 only): trigger a light-pen interrupt on the
video chip when the observed port-B bit 4 changed, and remember it. -/
def CIA.check_lp (c : CIA) : CIA × List Event :=
  let lp := (c.prb ||| (255 ^^^ c.ddrb)) &&& 0x10
  let evs := if lp ≠ c.prev_lp then [Event.LpIrq] else []
  ({ c with prev_lp := lp }, evs)

/-- Dispatch body of `CIA::read_cia1_register` for the non-mirrored
addresses (`0xDC00`, `0xDC01`); everything else is the `panic!` arm. -/
def read_cia1_register_base (c : CIA) (addr : Nat) : Option Nat :=
  if addr = 0xDC00 then
    let retval := c.pra ||| (255 ^^^ c.ddra)
    let tst := (c.prb ||| (255 ^^^ c.ddrb)) &&& c.joystick_1
    let retval := if tst &&& 0x01 = 0 then retval &&& c.rev_matrix.getD 0 0 else retval
    let retval := if tst &&& 0x02 = 0 then retval &&& c.rev_matrix.getD 1 0 else retval
    let retval := if tst &&& 0x04 = 0 then retval &&& c.rev_matrix.getD 2 0 else retval
    let retval := if tst &&& 0x08 = 0 then retval &&& c.rev_matrix.getD 3 0 else retval
    let retval := if tst &&& 0x10 = 0 then retval &&& c.rev_matrix.getD 4 0 else retval
    let retval := if tst &&& 0x20 = 0 then retval &&& c.rev_matrix.getD 5 0 else retval
    let retval := if tst &&& 0x40 = 0 then retval &&& c.rev_matrix.getD 6 0 else retval
    let retval := if tst &&& 0x80 = 0 then retval &&& c.rev_matrix.getD 7 0 else retval
    some (retval &&& c.joystick_2)
  else if addr = 0xDC01 then
    let retval := 255 ^^^ c.ddrb
    let tst := (c.pra ||| (255 ^^^ c.ddra)) &&& c.joystick_2
    let retval := if tst &&& 0x01 = 0 then retval &&& c.key_matrix.getD 0 0 else retval
    let retval := if tst &&& 0x02 = 0 then retval &&& c.key_matrix.getD 1 0 else retval
    let retval := if tst &&& 0x04 = 0 then retval &&& c.key_matrix.getD 2 0 else retval
    let retval := if tst &&& 0x08 = 0 then retval &&& c.key_matrix.getD 3 0 else retval
    let retval := if tst &&& 0x10 = 0 then retval &&& c.key_matrix.getD 4 0 else retval
    let retval := if tst &&& 0x20 = 0 then retval &&& c.key_matrix.getD 5 0 else retval
    let retval := if tst &&& 0x40 = 0 then retval &&& c.key_matrix.getD 6 0 else retval
    let retval := if tst &&& 0x80 = 0 then retval &&& c.key_matrix.getD 7 0 else retval
    some ((retval ||| (c.prb &&& c.ddrb)) &&& c.joystick_1)
  else
    none

/-- `CIA::read_cia1_register`: the mirrored-range arm
`0xDC10..=0xDCFF` folds the low byte modulo 16 (one step suffices), the
rest dispatches directly. -/
def CIA.read_cia1_register (c : CIA) (addr : Nat) : Option Nat :=
  if 0xDC10 ≤ addr ∧ addr ≤ 0xDCFF then
    read_cia1_register_base c (0xDC00 + addr % 16)
  else
    read_cia1_register_base c addr

/-- Dispatch body of `CIA::read_cia2_register` for the non-mirrored
addresses (`0xDD00`, `0xDD01`); everything else is the `panic!` arm. -/
def read_cia2_register_base (c : CIA) (addr : Nat) : Option Nat :=
  if addr = 0xDD00 then
    some ((c.pra ||| (255 ^^^ c.ddra)) &&& 0x3F ||| c.iec_lines)
  else if addr = 0xDD01 then
    some (c.prb ||| (255 ^^^ c.ddrb))
  else
    none

/-- `CIA::read_cia2_register`, with the `0xDD10..=0xDDFF` mirror fold. -/
def CIA.read_cia2_register (c : CIA) (addr : Nat) : Option Nat :=
  if 0xDD10 ≤ addr ∧ addr ≤ 0xDDFF then
    read_cia2_register_base c (0xDD00 + addr % 16)
  else
    read_cia2_register_base c addr

/-- Dispatch body of `CIA::read_register` for addresses whose low byte
is below `0x10`: the `match addr & 0x00FF` arms `0x02`..`0x0F`, and the
chip-instance-specific fallthrough for `0x00`/`0x01`.  Returns the read
value, the updated chip, and the updated CPU-callback cell. -/
def read_register_base (c : CIA) (addr : Nat) (on_cia_read : Callback) :
    Option (Nat × CIA × Callback) :=
  let lo := addr % 256
  if lo = 0x02 then some (c.ddra, c, on_cia_read)
  else if lo = 0x03 then some (c.ddrb, c, on_cia_read)
  else if lo = 0x04 then some (c.timer_a.value % 256, c, on_cia_read)
  else if lo = 0x05 then some ((c.timer_a.value / 256) % 256, c, on_cia_read)
  else if lo = 0x06 then some (c.timer_b.value % 256, c, on_cia_read)
  else if lo = 0x07 then some ((c.timer_b.value / 256) % 256, c, on_cia_read)
  else if lo = 0x08 then some (c.tod_dsec, { c with tod_halt := false }, on_cia_read)
  else if lo = 0x09 then some (c.tod_sec, c, on_cia_read)
  else if lo = 0x0A then some (c.tod_min, c, on_cia_read)
  else if lo = 0x0B then some (c.tod_hour, { c with tod_halt := true }, on_cia_read)
  else if lo = 0x0C then some (c.sdr, c, on_cia_read)
  else if lo = 0x0D then
    some (c.icr, { c with icr := 0 },
          if c.is_cia1 then Callback.ClearCIAIrq else Callback.ClearNMI)
  else if lo = 0x0E then some (c.timer_a.ctrl, c, on_cia_read)
  else if lo = 0x0F then some (c.timer_b.ctrl, c, on_cia_read)
  else
    if c.is_cia1 then
      (c.read_cia1_register addr).map (fun v => (v, c, on_cia_read))
    else
      (c.read_cia2_register addr).map (fun v => (v, c, on_cia_read))

/-- `CIA::read_register`: the `0x10..=0xFF` arm recurses on
`(addr & 0xFF00) + (addr % 0x0010)`, whose low byte is below `0x10`, so
the recursion unrolls in exactly one step, embedded here as a fold in
front of the dispatch body. -/
def CIA.read_register (c : CIA) (addr : Nat) (on_cia_read : Callback) :
    Option (Nat × CIA × Callback) :=
  if 0x10 ≤ addr % 256 then
    read_register_base c (((addr / 256) % 256) * 256 + addr % 16) on_cia_read
  else
    read_register_base c addr on_cia_read

/-- Dispatch body of `CIA::write_cia1_register` for the non-mirrored
addresses (`0xDC00`..`0xDC03`); everything else is the `panic!` arm. -/
def write_cia1_register_base (c : CIA) (addr value : Nat) :
    Option (CIA × List Event) :=
  if addr = 0xDC00 then
    some ({ c with pra := value }, [Event.MemWrite addr value])
  else if addr = 0xDC01 then
    let c := { c with prb := value }
    let (c, evs) := c.check_lp
    some (c, evs ++ [Event.MemWrite addr value])
  else if addr = 0xDC02 then
    some ({ c with ddra := value }, [Event.MemWrite addr value])
  else if addr = 0xDC03 then
    let c := { c with ddrb := value }
    let (c2, evs) := c.check_lp
    some (c2, [Event.MemWrite addr value] ++ evs)
  else
    none

/-- `CIA::write_cia1_register`, with the `0xDC10..=0xDCFF` mirror fold. -/
def CIA.write_cia1_register (c : CIA) (addr value : Nat) :
    Option (CIA × List Event) :=
  if 0xDC10 ≤ addr ∧ addr ≤ 0xDCFF then
    write_cia1_register_base c (0xDC00 + addr % 16) value
  else
    write_cia1_register_base c addr value

/-- Dispatch body of `CIA::write_cia2_register` for the non-mirrored
addresses (`0xDD00`..`0xDD03`); everything else is the `panic!` arm. -/
def write_cia2_register_base (c : CIA) (addr value : Nat) :
    Option (CIA × List Event) :=
  if addr = 0xDD00 then
    let c := { c with pra := value }
    some (c, [Event.VaChange ((255 ^^^ (c.pra ||| (255 ^^^ c.ddra))) &&& 3),
              Event.MemWrite addr value])
  else if addr = 0xDD01 then
    some ({ c with prb := value }, [Event.MemWrite addr value])
  else if addr = 0xDD02 then
    let c := { c with ddra := value }
    some (c, [Event.VaChange ((255 ^^^ (c.pra ||| (255 ^^^ c.ddra))) &&& 3),
              Event.MemWrite addr value])
  else if addr = 0xDD03 then
    some ({ c with ddrb := value }, [Event.MemWrite addr value])
  else
    none

/-- `CIA::write_cia2_register`, with the `0xDD10..=0xDDFF` mirror fold. -/
def CIA.write_cia2_register (c : CIA) (addr value : Nat) :
    Option (CIA × List Event) :=
  if 0xDD10 ≤ addr ∧ addr ≤ 0xDDFF then
    write_cia2_register_base c (0xDD00 + addr % 16) value
  else
    write_cia2_register_base c addr value

/-- `CIA::write_register`: dispatch on `addr & 0x00FF` (there is no
`0x10..=0xFF` fold at this level; mirrored addresses fall through to
the chip-instance writers).  Returns the updated chip, the updated
CPU-callback cell, and the collaborator calls performed. -/
def CIA.write_register (c : CIA) (addr value : Nat) (on_cia_write : Callback) :
    Option (CIA × Callback × List Event) :=
  let lo := addr % 256
  if lo = 0x04 then
    let ta := { c.timer_a with
      latch := ((c.timer_a.latch / 256) % 256) * 256 ||| value }
    some ({ c with timer_a := ta }, on_cia_write, [Event.MemWrite addr value])
  else if lo = 0x05 then
    let ta : CIATimer := { c.timer_a with
      latch := c.timer_a.latch % 256 ||| (value <<< 8) }
    let ta := if ta.ctrl &&& 1 = 0 then { ta with value := ta.latch } else ta
    some ({ c with timer_a := ta }, on_cia_write, [Event.MemWrite addr value])
  else if lo = 0x06 then
    let tb := { c.timer_b with
      latch := ((c.timer_b.latch / 256) % 256) * 256 ||| value }
    some ({ c with timer_b := tb }, on_cia_write, [Event.MemWrite addr value])
  else if lo = 0x07 then
    let tb : CIATimer := { c.timer_b with
      latch := c.timer_b.latch % 256 ||| (value <<< 8) }
    let tb := if tb.ctrl &&& 1 = 0 then { tb with value := tb.latch } else tb
    some ({ c with timer_b := tb }, on_cia_write, [Event.MemWrite addr value])
  else if lo = 0x08 then
    let c := if c.timer_b.ctrl &&& 0x80 ≠ 0 then { c with alarm_dsec := value % 16 }
             else { c with tod_dsec := value % 16 }
    some (c, on_cia_write, [Event.MemWrite addr value])
  else if lo = 0x09 then
    let c := if c.timer_b.ctrl &&& 0x80 ≠ 0 then { c with alarm_sec := value &&& 0x7F }
             else { c with tod_sec := value &&& 0x7F }
    some (c, on_cia_write, [Event.MemWrite addr value])
  else if lo = 0x0A then
    let c := if c.timer_b.ctrl &&& 0x80 ≠ 0 then { c with alarm_min := value &&& 0x7F }
             else { c with tod_min := value &&& 0x7F }
    some (c, on_cia_write, [Event.MemWrite addr value])
  else if lo = 0x0B then
    let c := if c.timer_b.ctrl &&& 0x80 ≠ 0 then { c with alarm_hour := value &&& 0x9F }
             else { c with tod_hour := value &&& 0x9F }
    some (c, on_cia_write, [Event.MemWrite addr value])
  else if lo = 0x0C then
    let c := { c with sdr := value }
    let (c, irq_triggered) := c.trigger_irq 8
    let cb := if irq_triggered then
                (if c.is_cia1 then Callback.TriggerCIAIrq else Callback.TriggerNMI)
              else on_cia_write
    some (c, cb, [])
  else if lo = 0x0D then
    let c := if value &&& 0x80 ≠ 0 then
               { c with irq_mask := c.irq_mask ||| (value &&& 0x7F) }
             else
               { c with irq_mask := c.irq_mask &&& (255 ^^^ value) }
    if c.icr &&& c.irq_mask &&& 0x1F ≠ 0 then
      some ({ c with icr := c.icr ||| 0x80 },
            (if c.is_cia1 then Callback.TriggerCIAIrq else Callback.TriggerNMI),
            [Event.MemWrite addr value])
    else
      some (c, on_cia_write, [Event.MemWrite addr value])
  else if lo = 0x0E then
    let ta := { c.timer_a with
      has_new_ctrl := true
      new_ctrl := value
      is_cnt_phi2 := value &&& 0x20 == 0 }
    some ({ c with timer_a := ta }, on_cia_write, [Event.MemWrite addr value])
  else if lo = 0x0F then
    let tb := { c.timer_b with
      has_new_ctrl := true
      new_ctrl := value
      is_cnt_phi2 := value &&& 0x60 == 0
      cnt_ta_underflow := value &&& 0x60 == 0x40 }
    some ({ c with timer_b := tb }, on_cia_write, [Event.MemWrite addr value])
  else
    if c.is_cia1 then
      (c.write_cia1_register addr value).map (fun p => (p.1, on_cia_write, p.2))
    else
      (c.write_cia2_register addr value).map (fun p => (p.1, on_cia_write, p.2))

/-- Convenience projection used by the scripted scenarios: perform a
register write and keep just the chip state (the arms exercised below
never hit the `panic!` case, where this falls back to the unchanged
chip). -/
def CIA.wr (c : CIA) (addr value : Nat) : CIA :=
  match c.write_register addr value Callback.None with
  | some (c2, _, _) => c2
  | none => c

/-- Read a register and keep just the chip state (used by the scripted
scenarios; the reads exercised below never hit the `panic!` case). -/
def CIA.rd (c : CIA) (addr : Nat) : CIA :=
  match c.read_register addr Callback.None with
  | some (_, c2, _) => c2
  | none => c

/-- A bitwise or with a nonzero left operand is nonzero. -/
theorem lor_ne_zero_left (a b : Nat) (ha : a ≠ 0) : a ||| b ≠ 0 := by
  intro h
  apply ha
  apply Nat.eq_of_testBit_eq
  intro i
  have hi := congrArg (fun n => n.testBit i) h
  simp only [Nat.testBit_or, Nat.zero_testBit] at hi
  simp only [Nat.zero_testBit]
  exact (Bool.or_eq_false_iff.mp hi).1

/-- A bitwise or with a nonzero right operand is nonzero. -/
theorem lor_ne_zero_right (a b : Nat) (hb : b ≠ 0) : a ||| b ≠ 0 := by
  rw [Nat.lor_comm]
  exact lor_ne_zero_left b a hb

/-- Setting bit 7 through `||| 0x80` makes bit 7 of the result set. -/
theorem or80_bit7 (x : Nat) : (x ||| 0x80) &&& 0x80 ≠ 0 := by
  rw [Nat.and_distrib_right]
  exact lor_ne_zero_right _ _ (by decide)

/-- Iterated update peels one step off the back as well. -/
theorem CIA.updates_succ (c : CIA) (n : Nat) :
    c.updates (n + 1) = (c.updates n).update := by
  induction n generalizing c with
  | zero => rfl
  | succ k ih =>
    show (c.update).updates (k + 1) = ((c.update).updates k).update
    exact ih c.update

/-- The alarm comparison only touches the interrupt state: all
time-of-day fields pass through `tod_alarm_check` unchanged. -/
theorem tod_alarm_check_fields (c : CIA) :
    (c.tod_alarm_check).1.tod_dsec = c.tod_dsec ∧
    (c.tod_alarm_check).1.tod_sec = c.tod_sec ∧
    (c.tod_alarm_check).1.tod_min = c.tod_min ∧
    (c.tod_alarm_check).1.tod_hour = c.tod_hour ∧
    (c.tod_alarm_check).1.tod_halt = c.tod_halt := by
  unfold CIA.tod_alarm_check CIA.trigger_irq
  by_cases h1 : c.tod_dsec = c.alarm_dsec ∧ c.tod_sec = c.alarm_sec ∧
      c.tod_min = c.alarm_min ∧ c.tod_hour = c.alarm_hour
  · by_cases h2 : c.irq_mask &&& 4 = 0
    · simp [h1, h2]
    · simp [h1, h2]
  · simp [h1]

/-- One BCD step with base-10 carry per nibble: the nibble pair
advances `0x09 ↦ 0x10`, `0x13 ↦ 0x14`, and so on (the formalisation of
the spec's "increments by one BCD step"). -/
def bcd_succ (x : Nat) : Nat :=
  if x % 16 = 9 then ((x / 16) + 1) * 16 else x + 1

/-- Packing an incremented-with-carry nibble pair equals `bcd_succ` in
the carry case (low nibble was 9). -/
theorem bcd_pack_carry :
    ∀ m, m < 90 → m % 16 = 9 → ((m / 16 + 1) <<< 4 ||| 0) = (m / 16 + 1) * 16 := by
  decide

/-- Packing an incremented nibble pair equals `bcd_succ` in the
no-carry case (low nibble at most 8). -/
theorem bcd_pack_nocarry :
    ∀ m, m < 90 → m % 16 ≤ 8 → ((m / 16) <<< 4 ||| (m % 16 + 1)) = m + 1 := by
  decide

/-- Power-on CIA1, then: enable timer B's interrupt source (mask write
`0x82`), program timer B's latch to 1, start timer B (control `0x01`,
phi2 input), and run three chip cycles — timer B underflows on the
third cycle and sets `timer_b.irq_next_cycle` with ICR source bit 1. -/
def timer_b_pending_scenario : CIA :=
  (((((CIA.new true).wr 0xDC0D 0x82).wr 0xDC06 1).wr 0xDC07 0).wr 0xDC0F 1).updates 3

/-- C1: in a reachable state where timer B's `irq_next_cycle` flag is
set (and timer A's is clear), `process_irq()` delivers nothing: it
returns the chip unchanged — timer B's flag stays set, no `raise` with
source mask 2 reaches the ICR summary bit, and no CPU signal is issued
— because both blocks of the source test `timer_a.irq_next_cycle`.
This refutes the claim that timer B's pending interrupt is delivered
and its flag cleared. -/
theorem C1_process_irq_drops_timer_b :
    timer_b_pending_scenario.timer_b.irq_next_cycle = true ∧
    timer_b_pending_scenario.timer_a.irq_next_cycle = false ∧
    timer_b_pending_scenario.irq_mask = 2 ∧
    timer_b_pending_scenario.icr = 2 ∧
    timer_b_pending_scenario.process_irq = (timer_b_pending_scenario, []) := by
  decide

/-- Power-on CIA1, then: timer A latch 2, timer A control `0x01`
(run, phi2, continuous), timer B latch 10, timer B control `0x41`
(run, cascade: count timer A underflows). -/
def cascade_scenario : CIA :=
  ((((((CIA.new true).wr 0xDC04 2).wr 0xDC05 0).wr 0xDC0E 1).wr 0xDC06 10).wr
    0xDC07 0).wr 0xDC0F 0x41

/-- C3: timer A first underflows during update call 4 (timer B
correctly steps 10 ↦ 9 there), but because `CIATimer.underflow` is
never cleared, timer B also decrements during update call 5 — a call
in which timer A is in `LoadCount` and performs a pure reload, so no
timer A underflow happens in that call.  This refutes "timer B
decrements iff timer A underflowed in that same update call". -/
theorem C3_cascade_decrements_without_underflow :
    (cascade_scenario.updates 3).timer_b.value = 10 ∧
    (cascade_scenario.updates 4).timer_b.value = 9 ∧
    (cascade_scenario.updates 4).timer_a.state = TimerState.LoadCount ∧
    (cascade_scenario.updates 4).timer_a.underflow = true ∧
    (cascade_scenario.updates 5).timer_a.state = TimerState.Count ∧
    (cascade_scenario.updates 5).timer_b.value = 8 ∧
    (cascade_scenario.updates 6).timer_b.value = 7 := by
  decide

/-- Power-on CIA1, program the time-of-day clock to
09:59:59.9 (hours register read latches `tod_halt`), via register
writes `0x08 ← 9`, `0x09 ← 0x59`, `0x0A ← 0x59`, `0x0B ← 0x09`, then a
read of the hours register `0x0B`. -/
def tod_halted_scenario : CIA :=
  ((((((CIA.new true).wr 0xDC08 9).wr 0xDC09 0x59).wr 0xDC0A 0x59).wr
    0xDC0B 9).rd 0xDC0B)

/-- C4: after the hours register was read (`tod_halt = true`) and
before any read of deciseconds, a single `count_tod()` call still
advances every time-of-day field — `count_tod` never consults
`tod_halt`.  This refutes the claim that the fields are left unchanged
while halted. -/
theorem C4_count_tod_ignores_halt :
    tod_halted_scenario.tod_halt = true ∧
    tod_halted_scenario.tod_hour = 0x09 ∧
    (tod_halted_scenario.count_tod).1.tod_halt = true ∧
    (tod_halted_scenario.count_tod).1.tod_hour = 0x80 ∧
    (tod_halted_scenario.count_tod).1.tod_sec = 0 ∧
    (tod_halted_scenario.count_tod).1.tod_dsec = 0 := by
  decide

/-- Power-on CIA1, then: timer A latch `0x0002` (writes to `0x04` and
`0x05`; the timer is stopped, so the high-byte write also loads the
live value), then control `0x09` = run + phi2-count + one-shot. -/
def one_shot_scenario : CIA :=
  (((CIA.new true).wr 0xDC04 2).wr 0xDC05 0).wr 0xDC0E 9

/-- C5: after the staged control takes effect (updates 1 and 2 are
staging: the value is still 2 after update 2), exactly two qualifying
counting cycles follow: update 3 decrements 2 ↦ 1, and update 4
decrements 1 ↦ 0, fires the underflow — ICR source bit 0 set, run bit
cleared in both `ctrl` and `new_ctrl` (the staged `pending_control`),
value reloaded to `0x0002` — and the timer then reaches `Stop` (update
5) and stays stopped with value 2 forever instead of counting on. -/
theorem C5_one_shot_stops_after_two_cycles :
    (one_shot_scenario.updates 2).timer_a.value = 2 ∧
    (one_shot_scenario.updates 3).timer_a.value = 1 ∧
    (one_shot_scenario.updates 4).icr &&& 1 = 1 ∧
    (one_shot_scenario.updates 4).timer_a.ctrl &&& 1 = 0 ∧
    (one_shot_scenario.updates 4).timer_a.new_ctrl &&& 1 = 0 ∧
    (one_shot_scenario.updates 4).timer_a.value = 2 ∧
    (one_shot_scenario.updates 5).timer_a.state = TimerState.Stop ∧
    (∀ n, (one_shot_scenario.updates (5 + n)).timer_a.state = TimerState.Stop ∧
          (one_shot_scenario.updates (5 + n)).timer_a.value = 2) := by
  refine ⟨by decide, by decide, by decide, by decide, by decide, by decide,
          by decide, ?_⟩
  have hfix : (one_shot_scenario.updates 5).update = one_shot_scenario.updates 5 := by
    decide
  have hall : ∀ n, one_shot_scenario.updates (5 + n) = one_shot_scenario.updates 5 := by
    intro n
    induction n with
    | zero => rfl
    | succ k ih =>
      have : (5 : Nat) + (k + 1) = (5 + k) + 1 := by omega
      rw [this, CIA.updates_succ, ih, hfix]
  intro n
  rw [hall n]
  exact ⟨by decide, by decide⟩

/-- Power-on CIA1, then: set TOD 00:59:59.9, hours 0x09, via the
chip struct directly (reachable by the corresponding register writes),
with minutes at `0x59` so the decisecond rollover carries all the way
into hours. -/
def tod_hours_scenario : CIA :=
  { CIA.new true with tod_dsec := 9, tod_sec := 0x59, tod_min := 0x59,
                      tod_hour := 0x09 }

/-- C9: when the minutes roll over, the source stores the incremented
hour with `|=` (`self.tod_hour |= (hi << 4) | lo`), so hours `0x09`
become `0x09 | 0x10 = 0x19`, which the 12-hour wrap check
(`> 0x11`) then collapses to `0x80` — not the BCD step `0x10` the
claim (and the spec's own example) requires. -/
theorem C9_hours_carry_is_ored :
    (tod_hours_scenario.count_tod).1.tod_hour = 0x80 ∧
    (tod_hours_scenario.count_tod).1.tod_min = 0 ∧
    (tod_hours_scenario.count_tod).1.tod_sec = 0 ∧
    (tod_hours_scenario.count_tod).1.tod_dsec = 0 := by
  decide

/-- Power-on CIA1, then: timer A latch `0x0000` (the stopped-timer
high-byte write loads value 0), control `0x01` (run, phi2), and two
update cycles: `Stop → WaitCount → Count`.  The timer is now counting
with `value = 0`. -/
def zero_latch_scenario : CIA :=
  ((((CIA.new true).wr 0xDC04 0).wr 0xDC05 0).wr 0xDC0E 1).updates 2

/-- C10: a reachable state in which the next `count()` executes its
decrement (`is_cnt_phi2` holds, state is `Count`) with `value = 0`:
the source's `self.value -= 1` computes `0u16 - 1`, which wraps below
zero (and panics in a debug build).  This refutes the claim that the
value register is at least 1 whenever the decrement executes.  The
follow-up conjuncts show the wrapped intermediate is consumed by the
underflow branch on the next update. -/
theorem C10_decrement_executes_at_zero :
    zero_latch_scenario.timer_a.state = TimerState.Count ∧
    zero_latch_scenario.timer_a.is_cnt_phi2 = true ∧
    zero_latch_scenario.timer_a.value = 0 ∧
    (zero_latch_scenario.update).timer_a.underflow = true ∧
    (zero_latch_scenario.update).timer_a.value = 0 := by
  decide

/-- Power-on CIA1, then: enable the serial-register interrupt source
(mask write `0x88`), write the serial data register (raises source 8,
setting the summary bit: ICR = `0x88`), then disable the source again
(mask write `0x08`, clearing mask bit 3). -/
def stale_summary_scenario : CIA :=
  (((CIA.new true).wr 0xDC0D 0x88).wr 0xDC0C 0).wr 0xDC0D 0x08

/-- C2 counterexample: a reachable state, produced by a mask write,
in which the summary bit 7 of `icr` is set although
`icr & irq_mask & 0x1F = 0` — the claimed equality does not hold after
every mask write, because a mask write (and a raise) only ever sets
bit 7 and nothing but the `0x0D` read clears it. -/
theorem C2_summary_bit_equality_fails :
    stale_summary_scenario.icr &&& 0x80 ≠ 0 ∧
    stale_summary_scenario.icr &&& stale_summary_scenario.irq_mask &&& 0x1F = 0 := by
  decide

/-- C2 (amended): after a read of the interrupt register the equality
holds (the whole pending register is cleared); after a mask write, and
across any `trigger_irq`, the forward implication holds —
`(pending & mask & 0x1F) ≠ 0` implies the summary bit is set — while
the converse can fail because bit 7 is only cleared by the read. -/
theorem C2_summary_bit_forward_invariant :
    (∀ (c : CIA) (addr : Nat) (cb : Callback) (r : Nat) (c2 : CIA) (cb2 : Callback),
      addr % 256 = 0x0D →
      c.read_register addr cb = some (r, c2, cb2) →
      ((c2.icr &&& 0x80 ≠ 0) ↔ c2.icr &&& c2.irq_mask &&& 0x1F ≠ 0)) ∧
    (∀ (c : CIA) (addr v : Nat) (cb : Callback) (c2 : CIA) (cb2 : Callback)
       (evs : List Event),
      addr % 256 = 0x0D →
      c.write_register addr v cb = some (c2, cb2, evs) →
      c2.icr &&& c2.irq_mask &&& 0x1F ≠ 0 → c2.icr &&& 0x80 ≠ 0) ∧
    (∀ (c : CIA) (m : Nat),
      (c.icr &&& c.irq_mask &&& 0x1F ≠ 0 → c.icr &&& 0x80 ≠ 0) →
      (c.trigger_irq m).1.icr &&& (c.trigger_irq m).1.irq_mask &&& 0x1F ≠ 0 →
      (c.trigger_irq m).1.icr &&& 0x80 ≠ 0) := by
  refine ⟨?_, ?_, ?_⟩
  · intro c addr cb r c2 cb2 h hr
    unfold CIA.read_register read_register_base at hr
    rw [if_neg (by omega)] at hr
    simp only [h] at hr
    norm_num at hr
    obtain ⟨h1, h2, h3⟩ := hr
    rw [← h2]
    simp
  · intro c addr v cb c2 cb2 evs h hw
    unfold CIA.write_register at hw
    simp only [h] at hw
    norm_num at hw
    repeat' split at hw
    all_goals
      simp only [Option.some.injEq, Prod.mk.injEq] at hw
      obtain ⟨h1, h2, h3⟩ := hw
      rw [← h1]
      intro hcon
      first
      | exact or80_bit7 _
      | simp_all
  · intro c m hinv
    unfold CIA.trigger_irq
    by_cases hm : c.irq_mask &&& m ≠ 0
    · rw [if_pos hm]
      intro _
      exact or80_bit7 _
    · rw [if_neg hm]
      intro hne
      simp only at hne ⊢
      push_neg at hm
      have hmm : m &&& c.irq_mask = 0 := by rw [Nat.land_comm]; exact hm
      rw [Nat.and_distrib_right, Nat.and_distrib_right, hmm, Nat.zero_and,
          Nat.or_zero] at hne
      rw [Nat.and_distrib_right]
      exact lor_ne_zero_left _ _ (hinv hne)

/-- C2 witness: the amended invariant applied at concrete inputs — a
`trigger_irq 2` on a chip with a stale summary bit and mask 1 keeps
the summary bit set. -/
theorem C2_summary_bit_forward_invariant_witness :
    (({ CIA.new true with icr := 0x81, irq_mask := 1 } : CIA).trigger_irq 2).1.icr &&&
      0x80 ≠ 0 := by
  have h := C2_summary_bit_forward_invariant.2.2
    { CIA.new true with icr := 0x81, irq_mask := 1 } 2 (by decide)
  exact h (by decide)

/-- C6: writing a timer's high latch byte (offset `0x05` for timer A,
`0x07` for timer B) while the timer's run bit in `ctrl` is clear
immediately copies the full (freshly updated) latch into the live
value register; while the run bit is set the live value is untouched. -/
theorem C6_high_latch_write_reload :
    ∀ (c : CIA) (addrA addrB v : Nat),
      addrA % 256 = 0x05 → addrB % 256 = 0x07 → v < 256 →
      ((c.timer_a.ctrl &&& 1 = 0 →
          (c.wr addrA v).timer_a.value = (c.wr addrA v).timer_a.latch ∧
          (c.wr addrA v).timer_a.latch = c.timer_a.latch % 256 ||| (v <<< 8)) ∧
       (c.timer_a.ctrl &&& 1 ≠ 0 →
          (c.wr addrA v).timer_a.value = c.timer_a.value) ∧
       (c.timer_b.ctrl &&& 1 = 0 →
          (c.wr addrB v).timer_b.value = (c.wr addrB v).timer_b.latch ∧
          (c.wr addrB v).timer_b.latch = c.timer_b.latch % 256 ||| (v <<< 8)) ∧
       (c.timer_b.ctrl &&& 1 ≠ 0 →
          (c.wr addrB v).timer_b.value = c.timer_b.value)) := by
  intro c addrA addrB v hA hB hv
  refine ⟨?_, ?_, ?_, ?_⟩
  · intro hrun
    rw [Nat.and_one_is_mod] at hrun
    unfold CIA.wr CIA.write_register
    simp only [hA]
    norm_num
    rw [if_pos hrun]
    exact ⟨rfl, rfl⟩
  · intro hrun
    rw [Nat.and_one_is_mod] at hrun
    unfold CIA.wr CIA.write_register
    simp only [hA]
    norm_num
    rw [if_neg hrun]
  · intro hrun
    rw [Nat.and_one_is_mod] at hrun
    unfold CIA.wr CIA.write_register
    simp only [hB]
    norm_num
    rw [if_pos hrun]
    exact ⟨rfl, rfl⟩
  · intro hrun
    rw [Nat.and_one_is_mod] at hrun
    unfold CIA.wr CIA.write_register
    simp only [hB]
    norm_num
    rw [if_neg hrun]

/-- C6 witness: the spec's example — with the timer stopped and latch
`0x0000` (after the low-byte write of `0x34` the latch is `0x0034`),
writing high byte `0x12` makes the live value `0x1234` immediately. -/
theorem C6_high_latch_write_reload_witness :
    (((CIA.new true).wr 0xDC04 0x34).wr 0xDC05 0x12).timer_a.value = 0x1234 := by
  have h := (C6_high_latch_write_reload ((CIA.new true).wr 0xDC04 0x34)
    0xDC05 0xDC07 0x12 rfl rfl (by decide)).1 (by decide)
  exact h.1.trans (h.2.trans (by decide))

/-- C7: for any chip state and any address inside the chip's page
whose low byte is `0x10` or higher, `read_register` behaves exactly —
same value, same state change, same callback — as on the address with
its low byte reduced modulo 16 (the register block is mirrored every
16 bytes). -/
theorem C7_mirrored_read_folds :
    ∀ (c : CIA) (addr : Nat) (cb : Callback),
      0x10 ≤ addr % 256 →
      addr / 256 = (if c.is_cia1 then 0xDC else 0xDD) →
      c.read_register addr cb =
        c.read_register ((addr / 256) * 256 + addr % 16) cb := by
  intro c addr cb h hp
  have hd : (addr / 256) % 256 = addr / 256 := by
    rcases hc : c.is_cia1 <;> rw [hc] at hp <;> simp at hp <;> omega
  unfold CIA.read_register
  rw [if_pos h, hd, if_neg (by omega)]

/-- C7 witness: on a CIA1 with pending interrupt bits `0x05`, reading
offset `0x1D` is identical to reading offset `0x0D` — the same value
is returned, the pending register is cleared, and the acknowledge
callback is issued. -/
theorem C7_mirrored_read_folds_witness :
    ({ CIA.new true with icr := 5 } : CIA).read_register 0xDC1D Callback.None =
      ({ CIA.new true with icr := 5 } : CIA).read_register 0xDC0D Callback.None ∧
    ({ CIA.new true with icr := 5 } : CIA).read_register 0xDC1D Callback.None =
      some (5, { CIA.new true with icr := 0 }, Callback.ClearCIAIrq) := by
  have h := C7_mirrored_read_folds { CIA.new true with icr := 5 } 0xDC1D
    Callback.None (by decide) (by decide)
  exact ⟨h.trans (by decide), h.trans (by decide)⟩

/-- C8: from any state with deciseconds 9 and seconds `0x59` (and a
minutes field holding a valid BCD pair below `0x59`), the `count_tod()`
call that rolls the deciseconds over resets seconds to `0x00` and
advances minutes by exactly one BCD step (base-10 carry per nibble). -/
theorem C8_seconds_rollover_carries_to_minutes :
    ∀ (c : CIA), c.tod_freq_div = 0 → c.tod_dsec = 9 → c.tod_sec = 0x59 →
      c.tod_min % 16 ≤ 9 → c.tod_min / 16 ≤ 5 → c.tod_min ≠ 0x59 →
      (c.count_tod).1.tod_dsec = 0 ∧ (c.count_tod).1.tod_sec = 0 ∧
      (c.count_tod).1.tod_min = bcd_succ c.tod_min := by
  intro c h0 h9 h59 hlo hhi hne
  have hm90 : c.tod_min < 90 := by omega
  unfold CIA.count_tod
  rw [if_neg (by simp [h0])]
  rw [h9, h59]
  dsimp only
  refine ⟨?_, ?_, ?_⟩
  · rw [(tod_alarm_check_fields _).1]
    norm_num
    repeat' split
    all_goals rfl
  · rw [(tod_alarm_check_fields _).2.1]
    norm_num
    repeat' split
    all_goals rfl
  · rw [(tod_alarm_check_fields _).2.2.1]
    norm_num
    have hM : ¬(5 < (if 9 < c.tod_min % 16 + 1 then c.tod_min / 16 + 1
                     else c.tod_min / 16)) := by
      by_cases hc : 9 < c.tod_min % 16 + 1 <;> simp [hc] <;> omega
    rw [if_neg hM]
    by_cases hc : c.tod_min % 16 = 9
    · have h1 : 9 < c.tod_min % 16 + 1 := by omega
      simp only [if_pos h1]
      rw [bcd_pack_carry c.tod_min hm90 hc]
      unfold bcd_succ
      rw [if_pos hc]
    · have h1 : ¬(9 < c.tod_min % 16 + 1) := by omega
      simp only [if_neg h1]
      rw [bcd_pack_nocarry c.tod_min hm90 (by omega)]
      unfold bcd_succ
      rw [if_neg hc]

/-- The chip state for the C8 witness: CIA1 at power-on with the TOD
set to __:09:59.9. -/
def c8_witness_state : CIA :=
  { CIA.new true with tod_dsec := 9, tod_sec := 0x59, tod_min := 9 }

/-- C8 witness: with TOD at __:09:59.9 the rollover call yields
seconds `0x00` and minutes `0x10 = bcd_succ 0x09`. -/
theorem C8_seconds_rollover_carries_to_minutes_witness :
    (c8_witness_state.count_tod).1.tod_sec = 0 ∧
    (c8_witness_state.count_tod).1.tod_min = 0x10 := by
  have h := C8_seconds_rollover_carries_to_minutes c8_witness_state
    (by decide) (by decide) (by decide) (by decide) (by decide) (by decide)
  exact ⟨h.2.1, h.2.2.trans (by decide)⟩
